import Mathlib

/-!
Shallow embedding of the audio-reactive visualization pipeline of
elk-led-controller (src/audio.rs), together with proofs checking the
natural-language specification against it.

Rust f32/f64 arithmetic is modelled over ℚ (exact rationals); `as u8`
casts are modelled by saturating truncation (Rust float-to-int casts
saturate), u8 wrapping addition by `% 256`, and the external FFT
(`spectrum_analyzer::samples_fft_to_spectrum`) by an oracle spectrum,
a list of (frequency, magnitude) pairs.
-/

attribute [local semireducible] Rat.mul Rat.inv Rat.add Rat.sub Rat.ofScientific

namespace ElkLed

/-- Frequency ranges for audio analysis (src/audio.rs, enum FrequencyRange). -/
inductive FrequencyRange
  | Bass
  | Mid
  | High
  | Full
deriving DecidableEq

/-- Visualization modes for audio monitoring (src/audio.rs, enum VisualizationMode). -/
inductive VisualizationMode
  | FrequencyColor
  | EnergyBrightness
  | BeatEffects
  | SpectralFlow
  | EnhancedFrequencyColor
  | BpmSync
deriving DecidableEq

/-- Audio visualization settings (src/audio.rs, struct AudioVisualization). -/
structure AudioVisualization where
  range : FrequencyRange
  mode : VisualizationMode
  sensitivity : ℚ
  bass_color_trigger : Bool
  mid_brightness_trigger : Bool
  high_effect_trigger : Bool
  update_interval_ms : ℕ
  active : Bool
deriving DecidableEq

/-- Default configuration (impl Default for AudioVisualization). -/
def AudioVisualization.default : AudioVisualization :=
  { range := .Full
    mode := .FrequencyColor
    sensitivity := 0.7
    bass_color_trigger := true
    mid_brightness_trigger := true
    high_effect_trigger := true
    update_interval_ms := 50
    active := false }

/-- Effect command codes (src/effects.rs, struct Effects). -/
structure Effects where
  jump_red_green_blue : ℕ
  jump_red_green_blue_yellow_cyan_magenta_white : ℕ
  crossfade_red : ℕ
  crossfade_green : ℕ
  crossfade_blue : ℕ
  crossfade_yellow : ℕ
  crossfade_cyan : ℕ
  crossfade_magenta : ℕ
  crossfade_white : ℕ
  crossfade_red_green : ℕ
  crossfade_red_blue : ℕ
  crossfade_green_blue : ℕ
  crossfade_red_green_blue : ℕ
  crossfade_red_green_blue_yellow_cyan_magenta_white : ℕ
  blink_red : ℕ
  blink_green : ℕ
  blink_blue : ℕ
  blink_yellow : ℕ
  blink_cyan : ℕ
  blink_magenta : ℕ
  blink_white : ℕ
  blink_red_green_blue_yellow_cyan_magenta_white : ℕ
deriving DecidableEq

/-- Predefined effect command values (src/effects.rs, const EFFECTS). -/
def EFFECTS : Effects :=
  { jump_red_green_blue := 0x87
    jump_red_green_blue_yellow_cyan_magenta_white := 0x88
    crossfade_red := 0x8b
    crossfade_green := 0x8c
    crossfade_blue := 0x8d
    crossfade_yellow := 0x8e
    crossfade_cyan := 0x8f
    crossfade_magenta := 0x90
    crossfade_white := 0x91
    crossfade_red_green := 0x92
    crossfade_red_blue := 0x93
    crossfade_green_blue := 0x94
    crossfade_red_green_blue := 0x89
    crossfade_red_green_blue_yellow_cyan_magenta_white := 0x8a
    blink_red := 0x96
    blink_green := 0x97
    blink_blue := 0x98
    blink_yellow := 0x99
    blink_cyan := 0x9a
    blink_magenta := 0x9b
    blink_white := 0x9c
    blink_red_green_blue_yellow_cyan_magenta_white := 0x95 }

/-- Rust float-to-u8 cast: truncate toward zero and saturate into 0..255
(float `as u8` casts saturate since Rust 1.45). -/
def f32ToU8 (q : ℚ) : ℕ :=
  min 255 q.floor.toNat

/-- Wrapping u8 addition, the release-mode semantics of `u8 += u8`. -/
def wadd8 (a b : ℕ) : ℕ :=
  (a + b) % 256

/-- Rust u8::clamp on the ℕ model. -/
def clampN (lo hi x : ℕ) : ℕ :=
  min hi (max lo x)

/-- Truncation toward zero on ℚ, matching Rust float `%` (fmod) semantics. -/
def qtrunc (q : ℚ) : ℤ :=
  if q < 0 then -((-q).floor) else q.floor

/-- Rust f64 `%` (remainder with truncated quotient) on the ℚ model. -/
def qfmod (x y : ℚ) : ℚ :=
  x - y * (qtrunc (x / y) : ℚ)

/-- Per-band analyzer state: the index-i slices of the arrays
energy, smoothed_energy, prev_energy, max_energy, beat_detected,
energy_history, beat_count of struct AudioAnalyzer (src/audio.rs). -/
structure BandState where
  energy : ℚ
  smoothed : ℚ
  maxE : ℚ
  prevE : ℚ
  history : List ℚ
  beatDetected : Bool
  beatCount : ℕ
deriving DecidableEq

/-- Audio spectrum analyzer state (src/audio.rs, struct AudioAnalyzer).
The three array slots index 0/1/2 are named bass/mid/high. -/
structure AudioAnalyzer where
  sample_size : ℕ
  sample_rate : ℕ
  samples : List ℚ
  bass : BandState
  mid : BandState
  high : BandState
  scaling : ℚ
  estimated_bpm : ℚ
  beat_timestamps : List ℚ
  last_beat_time : ℚ
deriving DecidableEq

/-- Initial state of one band (AudioAnalyzer::new). -/
def BandState.new : BandState :=
  { energy := 0
    smoothed := 0
    maxE := 0.01
    prevE := 0
    history := []
    beatDetected := false
    beatCount := 0 }

/-- AudioAnalyzer::new (src/audio.rs:119). -/
def AudioAnalyzer.new (sample_rate : ℕ) : AudioAnalyzer :=
  { sample_size := 2048
    sample_rate := sample_rate
    samples := []
    bass := BandState.new
    mid := BandState.new
    high := BandState.new
    scaling := 0.8
    estimated_bpm := 120
    beat_timestamps := []
    last_beat_time := 0 }

/-- Per-band beat detection thresholds [1.4, 1.3, 1.2] (AudioAnalyzer::new). -/
def beatThreshold : FrequencyRange → ℚ
  | .Bass => 1.4
  | .Mid => 1.3
  | .High => 1.2
  | .Full => 1

/-- AudioAnalyzer::add_sample (src/audio.rs:145): push the sample, evict the
oldest when over capacity. -/
def AudioAnalyzer.add_sample (a : AudioAnalyzer) (sample : ℚ) : AudioAnalyzer :=
  let samples := a.samples ++ [sample]
  { a with samples := if a.sample_size < samples.length then samples.tail else samples }

/-- One band of AudioAnalyzer::extract_energy (src/audio.rs:195-218): average
the spectrum magnitudes whose frequency lies in [lo, hi], scale, then update
max_energy (slow decay, clamped upward) and smoothed_energy (EMA 0.7/0.3).
No update when no bins fall in the range. -/
def extractBand (sc lo hi : ℚ) (spectrum : List (ℚ × ℚ)) (b : BandState) : BandState :=
  let vals := (spectrum.filter (fun p => decide (lo ≤ p.1) && decide (p.1 ≤ hi))).map Prod.snd
  if vals.isEmpty then b
  else
    let band_energy := vals.sum / (vals.length : ℚ)
    let e := band_energy * sc
    let m1 := b.maxE * 0.9995 + e * 0.0005
    let m2 := if m1 < e then e else m1
    { b with energy := e, maxE := m2, smoothed := b.smoothed * 0.7 + e * 0.3 }

/-- AudioAnalyzer::extract_energy (src/audio.rs:186): bands are
bass 20-250 Hz, mid 250-2000 Hz, high 2000-20000 Hz. -/
def AudioAnalyzer.extract_energy (a : AudioAnalyzer) (spectrum : List (ℚ × ℚ)) : AudioAnalyzer :=
  { a with
    bass := extractBand a.scaling 20 250 spectrum a.bass
    mid := extractBand a.scaling 250 2000 spectrum a.mid
    high := extractBand a.scaling 2000 20000 spectrum a.high }

/-- One band of the loop in AudioAnalyzer::detect_beats (src/audio.rs:229-263,
305-306): push energy into the bounded history, evaluate the beat criteria
against the previous energy, the local average and the refractory window,
and record prev_energy for the next tick. -/
def detectBand (threshold t lbt : ℚ) (b : BandState) : BandState :=
  let hist0 := b.history ++ [b.energy]
  let hist := if 20 < hist0.length then hist0.tail else hist0
  let normalized := if 0 < b.maxE then b.energy / b.maxE else 0
  let localAvg := if hist.isEmpty then b.energy else hist.sum / (hist.length : ℚ)
  let isBeat :=
    decide ((0.3 : ℚ) < normalized) &&
      (decide (b.prevE * threshold < b.energy) ||
        (decide (localAvg * 1.3 < b.energy) && decide ((0.2 : ℚ) < t - lbt)))
  { b with
    history := hist
    beatDetected := isBeat
    beatCount := b.beatCount + (if isBeat then 1 else 0)
    prevE := b.energy }

/-- The bass-only tempo update in AudioAnalyzer::detect_beats
(src/audio.rs:273-301): under the 200 ms refractory gate, record the
timestamp, evict entries older than 5 s from the front, and when at least
4 timestamps remain blend the instantaneous BPM into estimated_bpm only if
it lies in [60, 200]. Returns (estimated_bpm, beat_timestamps,
last_beat_time). -/
def updateTempo (t bpm : ℚ) (ts : List ℚ) (lbt : ℚ) : ℚ × List ℚ × ℚ :=
  if (0.2 : ℚ) < t - lbt then
    let ts2 := (ts ++ [t]).dropWhile (fun x => decide ((5 : ℚ) < t - x))
    let bpm2 :=
      if 4 ≤ ts2.length then
        let first_beat := ts2.headD 0
        let last_beat := ts2.getLastD 0
        let time_span := last_beat - first_beat
        if 0 < time_span then
          let new_bpm := ((ts2.length - 1 : ℕ) : ℚ) * 60 / time_span
          if 60 ≤ new_bpm ∧ new_bpm ≤ 200 then bpm * 0.7 + new_bpm * 0.3 else bpm
        else bpm
      else bpm
    (bpm2, ts2, t)
  else (bpm, ts, lbt)

/-- AudioAnalyzer::detect_beats (src/audio.rs:222-308). The bass band is
processed first against the old last_beat_time; its tempo update (which may
advance last_beat_time) is visible to the mid and high bands, exactly as in
the sequential Rust loop. -/
def AudioAnalyzer.detect_beats (a : AudioAnalyzer) (t : ℚ) : AudioAnalyzer :=
  let bass2 := detectBand (beatThreshold .Bass) t a.last_beat_time a.bass
  let tempo :=
    if bass2.beatDetected then updateTempo t a.estimated_bpm a.beat_timestamps a.last_beat_time
    else (a.estimated_bpm, a.beat_timestamps, a.last_beat_time)
  let mid2 := detectBand (beatThreshold .Mid) t tempo.2.2 a.mid
  let high2 := detectBand (beatThreshold .High) t tempo.2.2 a.high
  { a with
    bass := bass2
    mid := mid2
    high := high2
    estimated_bpm := tempo.1
    beat_timestamps := tempo.2.1
    last_beat_time := tempo.2.2 }

/-- AudioAnalyzer::analyze (src/audio.rs:153-183): no-op while fewer than
sample_size samples are buffered; otherwise run the FFT over the window and
on success extract energies and detect beats. The external FFT is an oracle:
`spectrum` is its result (`none` models an FFT error, whose tick is skipped),
and `t` the SystemTime the beat detector reads. -/
def AudioAnalyzer.analyzeWith (a : AudioAnalyzer) (spectrum : Option (List (ℚ × ℚ))) (t : ℚ) :
    AudioAnalyzer :=
  if a.samples.length < a.sample_size then a
  else
    match spectrum with
    | some sp => (a.extract_energy sp).detect_beats t
    | none => a

/-- AudioAnalyzer::get_bpm (src/audio.rs:311). -/
def AudioAnalyzer.get_bpm (a : AudioAnalyzer) : ℚ :=
  a.estimated_bpm

/-- AudioAnalyzer::is_on_beat (src/audio.rs:316-327). -/
def AudioAnalyzer.is_on_beat (a : AudioAnalyzer) (current_time : ℚ) : Bool :=
  if a.estimated_bpm ≤ 0 then false
  else
    let spb := 60 / a.estimated_bpm
    let beat_position := qfmod (current_time - a.last_beat_time) spb
    decide (beat_position < 0.1) || decide (spb - 0.1 < beat_position)

/-- AudioAnalyzer::get_normalized_energy (src/audio.rs:330-364):
smoothed_energy / max_energy per band (0 when max_energy is not positive),
and the mean of the three per-band values for Full. -/
def AudioAnalyzer.get_normalized_energy (a : AudioAnalyzer) (range : FrequencyRange) : ℚ :=
  match range with
  | .Bass => if 0 < a.bass.maxE then a.bass.smoothed / a.bass.maxE else 0
  | .Mid => if 0 < a.mid.maxE then a.mid.smoothed / a.mid.maxE else 0
  | .High => if 0 < a.high.maxE then a.high.smoothed / a.high.maxE else 0
  | .Full =>
      ((if 0 < a.bass.maxE then a.bass.smoothed / a.bass.maxE else 0) +
        (if 0 < a.mid.maxE then a.mid.smoothed / a.mid.maxE else 0) +
        (if 0 < a.high.maxE then a.high.smoothed / a.high.maxE else 0)) / 3

/-- AudioAnalyzer::is_beat_detected (src/audio.rs:367-374). -/
def AudioAnalyzer.is_beat_detected (a : AudioAnalyzer) (range : FrequencyRange) : Bool :=
  match range with
  | .Bass => a.bass.beatDetected
  | .Mid => a.mid.beatDetected
  | .High => a.high.beatDetected
  | .Full => a.bass.beatDetected || a.mid.beatDetected || a.high.beatDetected

/-- The color decision published per tick (src/audio.rs, struct AudioColor). -/
structure AudioColor where
  r : ℕ
  g : ℕ
  b : ℕ
  brightness : ℕ
  effect : Option ℕ
deriving DecidableEq

/-- Default AudioColor (impl Default for AudioColor): black at 100%. -/
def AudioColor.default : AudioColor :=
  { r := 0, g := 0, b := 0, brightness := 100, effect := none }

/-- The visualization engine: the per-mode match of AudioMonitor::run_analyzer
(src/audio.rs:681-1004). In the Rust code the decision is a mutable
`audio_color` carried across iterations; fields a mode does not assign keep
the previous decision's value, so `prev` is that carried decision. `sinQ` is
an oracle for the external f32::sin. `t` is the current_time read at the top
of the active branch (src/audio.rs:675). -/
def decideColor (sinQ : ℚ → ℚ) (a : AudioAnalyzer) (cfg : AudioVisualization) (t : ℚ)
    (prev : AudioColor) : AudioColor :=
  match cfg.mode with
  | .FrequencyColor =>
      let bass := a.get_normalized_energy .Bass
      let mid := a.get_normalized_energy .Mid
      let high := a.get_normalized_energy .High
      let r := f32ToU8 (bass * 255 * cfg.sensitivity)
      let g := f32ToU8 (mid * 255 * cfg.sensitivity)
      let b := f32ToU8 (high * 255 * cfg.sensitivity)
      let overall := a.get_normalized_energy .Full
      let r2 := if (0.05 : ℚ) < overall then max r 10 else r
      let g2 := if (0.05 : ℚ) < overall then max g 10 else g
      let b2 := if (0.05 : ℚ) < overall then max b 10 else b
      { r := r2, g := g2, b := b2, brightness := prev.brightness, effect := none }
  | .EnergyBrightness =>
      let bass := a.get_normalized_energy .Bass
      let mid := a.get_normalized_energy .Mid
      let high := a.get_normalized_energy .High
      let energy := a.get_normalized_energy .Full
      let brightness := clampN 5 100 (f32ToU8 (energy * 100 * cfg.sensitivity))
      if mid < bass ∧ high < bass ∧ (0.1 : ℚ) < bass then
        { r := 255, g := 0, b := 0, brightness := brightness, effect := none }
      else if bass < mid ∧ high < mid ∧ (0.1 : ℚ) < mid then
        { r := 0, g := 255, b := 0, brightness := brightness, effect := none }
      else if bass < high ∧ mid < high ∧ (0.1 : ℚ) < high then
        { r := 0, g := 0, b := 255, brightness := brightness, effect := none }
      else
        { r := 255, g := 255, b := 255, brightness := brightness, effect := none }
  | .BeatEffects =>
      let energy := a.get_normalized_energy .Full
      let brightness := clampN 20 100 (f32ToU8 (energy * 100 * cfg.sensitivity))
      if a.is_beat_detected .Bass && cfg.bass_color_trigger then
        { r := 255, g := 0, b := 0, brightness := brightness,
          effect := some EFFECTS.crossfade_red }
      else if a.is_beat_detected .Mid && cfg.mid_brightness_trigger then
        { r := 0, g := 255, b := 0, brightness := brightness,
          effect := some EFFECTS.crossfade_green }
      else if a.is_beat_detected .High && cfg.high_effect_trigger then
        { r := 0, g := 0, b := 255, brightness := brightness,
          effect := some EFFECTS.crossfade_blue }
      else
        { r := 255, g := 255, b := 255, brightness := brightness, effect := none }
  | .SpectralFlow =>
      let bass := a.get_normalized_energy .Bass
      let mid := a.get_normalized_energy .Mid
      let high := a.get_normalized_energy .High
      let time := t
      let energy := bass * 0.5 + mid * 0.3 + high * 0.2
      let brightness := f32ToU8 (min (max (energy * 100 * cfg.sensitivity) 20) 100)
      if energy < (0.05 : ℚ) then
        let pulse := sinQ (time * 0.5) * 0.5 + 0.5
        { r := f32ToU8 (pulse * 50), g := f32ToU8 (pulse * 50), b := f32ToU8 (pulse * 80),
          brightness := brightness, effect := some EFFECTS.crossfade_red_green_blue }
      else if a.is_beat_detected .Bass && decide ((0.7 : ℚ) < bass) then
        { r := prev.r, g := prev.g, b := prev.b, brightness := brightness,
          effect := some EFFECTS.jump_red_green_blue_yellow_cyan_magenta_white }
      else
        let bass_phase := sinQ (time * 0.7) * 0.5 + 0.5
        let mid_phase := sinQ (time * 0.7 + 2) * 0.5 + 0.5
        let high_phase := sinQ (time * 0.7 + 4) * 0.5 + 0.5
        { r := f32ToU8 (bass_phase * 255 * bass * cfg.sensitivity)
          g := f32ToU8 (mid_phase * 255 * mid * cfg.sensitivity)
          b := f32ToU8 (high_phase * 255 * high * cfg.sensitivity)
          brightness := brightness, effect := some EFFECTS.crossfade_red_green_blue }
  | .EnhancedFrequencyColor =>
      let bass := a.get_normalized_energy .Bass
      let mid := a.get_normalized_energy .Mid
      let high := a.get_normalized_energy .High
      let r1 := if (0.05 : ℚ) < bass then wadd8 0 (f32ToU8 (255 * bass * cfg.sensitivity)) else 0
      let g1 :=
        if (0.05 : ℚ) < bass then wadd8 0 (f32ToU8 (150 * bass * bass * cfg.sensitivity)) else 0
      let g2 := if (0.05 : ℚ) < mid then wadd8 g1 (f32ToU8 (255 * mid * cfg.sensitivity)) else g1
      let b1 :=
        if (0.05 : ℚ) < mid then wadd8 0 (f32ToU8 (100 * mid * mid * cfg.sensitivity)) else 0
      let b2 := if (0.05 : ℚ) < high then wadd8 b1 (f32ToU8 (255 * high * cfg.sensitivity)) else b1
      let r2 :=
        if (0.05 : ℚ) < high then wadd8 r1 (f32ToU8 (180 * high * high * cfg.sensitivity)) else r1
      let g3 :=
        if (0.05 : ℚ) < high then wadd8 g2 (f32ToU8 (180 * high * high * cfg.sensitivity)) else g2
      let overall := a.get_normalized_energy .Full
      let r3 := if (0.05 : ℚ) < overall then max r2 10 else r2
      let g4 := if (0.05 : ℚ) < overall then max g3 10 else g3
      let b3 := if (0.05 : ℚ) < overall then max b2 10 else b2
      let brightness := clampN 20 100 (f32ToU8 (overall * 100 * cfg.sensitivity))
      let warm : ℕ × ℕ × ℕ :=
        if (0.7 : ℚ) < bass ∧ 1.5 * mid < bass ∧ 2 * high < bass then
          (255, f32ToU8 (120 * bass * cfg.sensitivity), 0)
        else (r3, g4, b3)
      let cool : ℕ × ℕ × ℕ :=
        if (0.7 : ℚ) < high ∧ 1.5 * mid < high ∧ 2 * bass < high then
          (f32ToU8 (210 * high * cfg.sensitivity), f32ToU8 (220 * high * cfg.sensitivity), 255)
        else warm
      { r := cool.1, g := cool.2.1, b := cool.2.2, brightness := brightness, effect := none }
  | .BpmSync =>
      let bpm := a.get_bpm
      let bass := a.get_normalized_energy .Bass
      let mid := a.get_normalized_energy .Mid
      let high := a.get_normalized_energy .High
      let r := f32ToU8 (min (bass * 255 * cfg.sensitivity * 1.2) 255)
      let g := f32ToU8 (min (mid * 255 * cfg.sensitivity * 1.1) 255)
      let b := f32ToU8 (min (high * 255 * cfg.sensitivity * 1.2) 255)
      let on_beat := a.is_on_beat t
      let base_brightness := f32ToU8 (max (60 * cfg.sensitivity) 20)
      let pulse_amplitude := f32ToU8 (40 * cfg.sensitivity)
      let brightness :=
        if on_beat then min (base_brightness + pulse_amplitude) 100 else base_brightness
      if bpm < 70 then
        if on_beat && a.is_beat_detected .Bass then
          { r := 255, g := f32ToU8 ((g : ℚ) * 0.7), b := f32ToU8 ((b : ℚ) * 0.6),
            brightness := brightness, effect := some EFFECTS.crossfade_red }
        else
          { r := r, g := g, b := b, brightness := brightness,
            effect := some EFFECTS.crossfade_red_green_blue }
      else if bpm < 120 then
        if on_beat then
          if a.is_beat_detected .Bass then
            { r := 255, g := 40, b := 0, brightness := brightness,
              effect := some EFFECTS.jump_red_green_blue }
          else
            { r := 255, g := 255, b := 255, brightness := brightness,
              effect := some EFFECTS.crossfade_white }
        else
          { r := r, g := g, b := b, brightness := brightness, effect := none }
      else
        if on_beat && a.is_beat_detected .Bass then
          { r := 255, g := 255, b := 255, brightness := brightness,
            effect := some EFFECTS.jump_red_green_blue_yellow_cyan_magenta_white }
        else if on_beat then
          { r := r, g := g, b := b, brightness := brightness,
            effect := some EFFECTS.blink_red_green_blue_yellow_cyan_magenta_white }
        else
          { r := f32ToU8 ((r : ℚ) * 0.7), g := f32ToU8 ((g : ℚ) * 0.7),
            b := f32ToU8 ((b : ℚ) * 0.7), brightness := brightness, effect := none }

/-- State carried across passes of the analyzer loop in
AudioMonitor::run_analyzer (src/audio.rs:632-634): the analyzer, the Instant
of the last visual update (in ms), and the carried mutable audio_color. -/
structure AnalyzerLoopState where
  analyzer : AudioAnalyzer
  lastUpdate : ℚ
  audioColor : AudioColor
deriving DecidableEq

/-- One pass of the loop body of AudioMonitor::run_analyzer
(src/audio.rs:637-1015): drain all buffered samples, and once the configured
update interval has elapsed run analyze(); only when the configuration is
active compute a new decision and publish it to the watch channel. Returns
the new loop state and the value published this pass (none when nothing was
sent). `pending` are the samples drained this pass, `spectrum` the FFT
oracle, `now` the Instant in ms, `tA`/`tD` the SystemTime values read by
detect_beats and by the visualization branch. -/
def runAnalyzerPass (sinQ : ℚ → ℚ) (cfg : AudioVisualization) (pending : List ℚ)
    (spectrum : Option (List (ℚ × ℚ))) (now tA tD : ℚ) (st : AnalyzerLoopState) :
    AnalyzerLoopState × Option AudioColor :=
  let analyzer1 := pending.foldl AudioAnalyzer.add_sample st.analyzer
  if (cfg.update_interval_ms : ℚ) ≤ now - st.lastUpdate then
    let analyzer2 := analyzer1.analyzeWith spectrum tA
    if cfg.active then
      let c := decideColor sinQ analyzer2 cfg tD st.audioColor
      (⟨analyzer2, now, c⟩, some c)
    else (⟨analyzer2, now, st.audioColor⟩, none)
  else (⟨analyzer1, st.lastUpdate, st.audioColor⟩, none)

/-- AudioMonitor::get_energy (src/audio.rs:1230-1244): reads the latest
published AudioColor from the watch channel and converts its RGB channels
back to energy levels. -/
def AudioMonitor.get_energy (audio_color : AudioColor) (range : FrequencyRange) : ℚ :=
  match range with
  | .Bass => (audio_color.r : ℚ) / 255
  | .Mid => (audio_color.g : ℚ) / 255
  | .High => (audio_color.b : ℚ) / 255
  | .Full => ((audio_color.r : ℚ) + (audio_color.g : ℚ) + (audio_color.b : ℚ)) / (3 * 255)

/-- AudioMonitor::get_estimated_bpm (src/audio.rs:1248-1261): a stub that
reads only the configuration, returning the placeholder 120 in BpmSync mode
and 0 otherwise; the analyzer's actual estimate is not consulted. -/
def AudioMonitor.get_estimated_bpm (config : AudioVisualization) : ℚ :=
  if config.mode = .BpmSync then 120 else 0

/-- The amplified sample the capture callback hands to the ingestion queue
(AudioMonitor::build_input_stream, src/audio.rs:602-611): the platform
sample normalized into [-1, 1] is multiplied by 5.0 before try_send. -/
def capturedSample (sample_f32 : ℚ) : ℚ :=
  sample_f32 * 5

/-- One externally triggered analyzer operation: a sample arrival or an
analysis tick (with its FFT oracle result and SystemTime). -/
inductive AudioOp
  | addSample (x : ℚ)
  | analyzeTick (spectrum : Option (List (ℚ × ℚ))) (t : ℚ)
deriving DecidableEq

/-- Apply one operation to the analyzer. -/
def AudioOp.apply (a : AudioAnalyzer) : AudioOp → AudioAnalyzer
  | .addSample x => a.add_sample x
  | .analyzeTick spectrum t => a.analyzeWith spectrum t

/-- Run a sequence of operations from the freshly created analyzer. -/
def runOps (sample_rate : ℕ) (ops : List AudioOp) : AudioAnalyzer :=
  ops.foldl AudioOp.apply (AudioAnalyzer.new sample_rate)

/-- Well-formedness of an FFT oracle result: magnitudes are non-negative,
as the spectrum_analyzer crate guarantees for FFT magnitudes. -/
def spectrumWF : Option (List (ℚ × ℚ)) → Bool
  | none => true
  | some sp => sp.all fun p => decide (0 ≤ p.2)

/-- Well-formedness of one operation. -/
def AudioOp.wf : AudioOp → Bool
  | .addSample _ => true
  | .analyzeTick spectrum _ => spectrumWF spectrum

/-- Well-formedness of an operation sequence. -/
def opsWF (ops : List AudioOp) : Bool :=
  ops.all AudioOp.wf

/-! Invariants of the analyzer state, preserved by every operation. -/

/-- Energy invariant of one band: max_energy stays positive and both the raw
and the smoothed energy stay inside [0, max_energy]. -/
def BandState.energyInv (b : BandState) : Prop :=
  0 < b.maxE ∧ 0 ≤ b.smoothed ∧ b.smoothed ≤ b.maxE ∧ 0 ≤ b.energy ∧ b.energy ≤ b.maxE

/-- Energy invariant of the whole analyzer (plus non-negativity of the fixed
scaling factor). -/
def AudioAnalyzer.energyInvAll (a : AudioAnalyzer) : Prop :=
  a.bass.energyInv ∧ a.mid.energyInv ∧ a.high.energyInv ∧ 0 ≤ a.scaling

lemma extractBand_energyInv {sc lo hi : ℚ} (hsc : 0 ≤ sc) {sp : List (ℚ × ℚ)}
    (hsp : ∀ p ∈ sp, 0 ≤ p.2) {b : BandState} (hb : b.energyInv) :
    (extractBand sc lo hi sp b).energyInv := by
  obtain ⟨h1, h2, h3, h4, h5⟩ := hb
  simp only [extractBand]
  split
  · exact ⟨h1, h2, h3, h4, h5⟩
  · rename_i hv
    set vals := (sp.filter (fun p => decide (lo ≤ p.1) && decide (p.1 ≤ hi))).map Prod.snd
      with hvals
    have hne : vals ≠ [] := by
      intro hnil
      rw [hnil] at hv
      simp at hv
    have hlen : 0 < (vals.length : ℚ) := by
      have := List.length_pos.mpr hne
      exact_mod_cast this
    have hmem : ∀ x ∈ vals, 0 ≤ x := by
      intro x hx
      rw [hvals] at hx
      obtain ⟨p, hp, rfl⟩ := List.mem_map.mp hx
      exact hsp p (List.mem_of_mem_filter hp)
    have hsum : 0 ≤ vals.sum := List.sum_nonneg hmem
    have he : 0 ≤ vals.sum / (vals.length : ℚ) * sc :=
      mul_nonneg (div_nonneg hsum hlen.le) hsc
    set e := vals.sum / (vals.length : ℚ) * sc with hedef
    unfold BandState.energyInv
    dsimp only
    split
    · rename_i hcmp
      have hme : b.maxE < e := by nlinarith
      refine ⟨by linarith, by linarith, by nlinarith, he, le_refl e⟩
    · rename_i hcmp
      push_neg at hcmp
      have hme : e ≤ b.maxE := by nlinarith
      refine ⟨by nlinarith, by linarith, by nlinarith, he, hcmp⟩

lemma detectBand_maxE (th t lbt : ℚ) (b : BandState) : (detectBand th t lbt b).maxE = b.maxE :=
  rfl

lemma detectBand_smoothed (th t lbt : ℚ) (b : BandState) :
    (detectBand th t lbt b).smoothed = b.smoothed :=
  rfl

lemma detectBand_energy (th t lbt : ℚ) (b : BandState) :
    (detectBand th t lbt b).energy = b.energy :=
  rfl

lemma detectBand_energyInv {th t lbt : ℚ} {b : BandState} (hb : b.energyInv) :
    (detectBand th t lbt b).energyInv := by
  unfold BandState.energyInv at hb ⊢
  rw [detectBand_maxE, detectBand_smoothed, detectBand_energy]
  exact hb

lemma detect_beats_energyInvAll {a : AudioAnalyzer} {t : ℚ} (h : a.energyInvAll) :
    (a.detect_beats t).energyInvAll := by
  obtain ⟨hb, hm, hh, hs⟩ := h
  exact ⟨detectBand_energyInv hb, detectBand_energyInv hm, detectBand_energyInv hh, hs⟩

lemma extract_energy_energyInvAll {a : AudioAnalyzer} {sp : List (ℚ × ℚ)}
    (hsp : ∀ p ∈ sp, 0 ≤ p.2) (h : a.energyInvAll) : (a.extract_energy sp).energyInvAll := by
  obtain ⟨hb, hm, hh, hs⟩ := h
  exact ⟨extractBand_energyInv hs hsp hb, extractBand_energyInv hs hsp hm,
    extractBand_energyInv hs hsp hh, hs⟩

lemma analyzeWith_energyInvAll {a : AudioAnalyzer} {sp : Option (List (ℚ × ℚ))} {t : ℚ}
    (hsp : spectrumWF sp = true) (h : a.energyInvAll) : (a.analyzeWith sp t).energyInvAll := by
  unfold AudioAnalyzer.analyzeWith
  split
  · exact h
  · match sp, hsp with
    | none, _ => exact h
    | some l, hsp =>
        have hl : ∀ p ∈ l, 0 ≤ p.2 := by
          intro p hp
          have := List.all_eq_true.mp hsp p hp
          simpa using this
        exact detect_beats_energyInvAll (extract_energy_energyInvAll hl h)

lemma add_sample_energyInvAll {a : AudioAnalyzer} {x : ℚ} (h : a.energyInvAll) :
    (a.add_sample x).energyInvAll :=
  h

lemma apply_energyInvAll {a : AudioAnalyzer} {op : AudioOp} (hop : op.wf = true)
    (h : a.energyInvAll) : (AudioOp.apply a op).energyInvAll := by
  cases op with
  | addSample x => exact add_sample_energyInvAll h
  | analyzeTick sp t => exact analyzeWith_energyInvAll hop h

/-- Generic preservation of an invariant along a run of operations. -/
lemma foldl_apply_inv (P : AudioAnalyzer → Prop)
    (hstep : ∀ a op, AudioOp.wf op = true → P a → P (AudioOp.apply a op)) :
    ∀ (ops : List AudioOp) (a : AudioAnalyzer), opsWF ops = true → P a →
      P (ops.foldl AudioOp.apply a) := by
  intro ops
  induction ops with
  | nil => intro a _ h; exact h
  | cons op ops ih =>
      intro a hwf h
      have hwf' := List.all_eq_true.mp hwf
      refine ih _ ?_ (hstep a op (hwf' op (by simp)) h)
      refine List.all_eq_true.mpr ?_
      intro x hx
      exact hwf' x (by simp [hx])

lemma new_energyInvAll (sr : ℕ) : (AudioAnalyzer.new sr).energyInvAll := by
  refine ⟨?_, ?_, ?_, ?_⟩ <;>
    simp [AudioAnalyzer.new, BandState.new, BandState.energyInv] <;> norm_num

lemma runOps_energyInvAll {sr : ℕ} {ops : List AudioOp} (hwf : opsWF ops = true) :
    (runOps sr ops).energyInvAll :=
  foldl_apply_inv _ (fun _ _ hop h => apply_energyInvAll hop h) ops _ hwf (new_energyInvAll sr)

lemma normalized_energy_band_bounds {b : BandState} (hb : b.energyInv) :
    0 ≤ (if 0 < b.maxE then b.smoothed / b.maxE else 0) ∧
      (if 0 < b.maxE then b.smoothed / b.maxE else 0) ≤ 1 := by
  obtain ⟨h1, h2, h3, _, _⟩ := hb
  rw [if_pos h1]
  exact ⟨div_nonneg h2 h1.le, (div_le_one h1).mpr h3⟩

lemma get_normalized_energy_bounds {a : AudioAnalyzer} (h : a.energyInvAll)
    (range : FrequencyRange) :
    0 ≤ a.get_normalized_energy range ∧ a.get_normalized_energy range ≤ 1 := by
  obtain ⟨hb, hm, hh, _⟩ := h
  obtain ⟨hb0, hb1⟩ := normalized_energy_band_bounds hb
  obtain ⟨hm0, hm1⟩ := normalized_energy_band_bounds hm
  obtain ⟨hh0, hh1⟩ := normalized_energy_band_bounds hh
  cases range with
  | Bass => exact ⟨hb0, hb1⟩
  | Mid => exact ⟨hm0, hm1⟩
  | High => exact ⟨hh0, hh1⟩
  | Full =>
      unfold AudioAnalyzer.get_normalized_energy
      constructor
      · positivity
      · rw [div_le_one (by norm_num : (0:ℚ) < 3)]
        linarith

/-! Tempo invariant: recorded bass-beat timestamps are strictly increasing
with consecutive gaps above 0.2 s, they never exceed last_beat_time, and the
BPM estimate stays inside [60, 200]. -/

/-- Tempo invariant on an (estimated_bpm, beat_timestamps, last_beat_time)
triple. -/
def tempoTripleInv (x : ℚ × List ℚ × ℚ) : Prop :=
  List.Chain' (fun u v => u + 0.2 < v) x.2.1 ∧ (∀ y ∈ x.2.1, y ≤ x.2.2) ∧
    60 ≤ x.1 ∧ x.1 ≤ 200

/-- Tempo invariant of the analyzer. -/
def AudioAnalyzer.tempoInv (a : AudioAnalyzer) : Prop :=
  tempoTripleInv (a.estimated_bpm, a.beat_timestamps, a.last_beat_time)

lemma chain'_dropWhile {α : Type} {R : α → α → Prop} (p : α → Bool) :
    ∀ l : List α, List.Chain' R l → List.Chain' R (l.dropWhile p) := by
  intro l hl
  induction l with
  | nil => simp
  | cons a l ih =>
      rw [List.dropWhile_cons]
      split
      · exact ih hl.tail
      · exact hl

lemma chain'_lt_getLastD (f : ℚ → ℚ → Prop) (hf : ∀ u v, f u v → u < v) :
    ∀ (l : List ℚ) (a : ℚ), List.Chain' f (a :: l) → l ≠ [] → a < l.getLastD a := by
  intro l
  induction l with
  | nil => intro a _ h; exact absurd rfl h
  | cons b m ih =>
      intro a hch _
      have hab : f a b := (List.chain'_cons.mp hch).1
      have hbm : List.Chain' f (b :: m) := (List.chain'_cons.mp hch).2
      rcases List.eq_nil_or_concat m with hm | _
      · subst hm
        simpa using hf a b hab
      · have hne : m ≠ [] := by
          rename_i hex
          obtain ⟨l2, x, rfl⟩ := hex
          simp
        have := ih b hbm hne
        rw [List.getLastD_cons]
        exact lt_trans (hf a b hab) this

lemma updateTempo_inv {t bpm lbt : ℚ} {ts : List ℚ}
    (hch : List.Chain' (fun u v => u + 0.2 < v) ts) (hbound : ∀ y ∈ ts, y ≤ lbt)
    (hlo : 60 ≤ bpm) (hhi : bpm ≤ 200) : tempoTripleInv (updateTempo t bpm ts lbt) := by
  unfold updateTempo
  split
  · rename_i hfire
    have hchain1 : List.Chain' (fun u v => u + 0.2 < v) (ts ++ [t]) := by
      rw [List.chain'_append]
      refine ⟨hch, List.chain'_singleton t, ?_⟩
      intro x hx y hy
      have hxts : x ∈ ts := List.mem_of_mem_getLast? hx
      have hyt : t = y := by simpa using hy
      have := hbound x hxts
      subst hyt
      linarith
    have hchain2 :
        List.Chain' (fun u v => u + 0.2 < v)
          ((ts ++ [t]).dropWhile fun x => decide (5 < t - x)) :=
      chain'_dropWhile _ _ hchain1
    have hbound2 : ∀ y ∈ (ts ++ [t]).dropWhile fun x => decide (5 < t - x), y ≤ t := by
      intro y hy
      have hy2 : y ∈ ts ++ [t] := (List.dropWhile_sublist _).subset hy
      rcases List.mem_append.mp hy2 with hyl | hyr
      · have := hbound y hyl
        linarith
      · simp at hyr
        exact le_of_eq hyr
    refine ⟨hchain2, hbound2, ?_, ?_⟩ <;>
      · dsimp only
        split
        · split
          · split
            · rename_i hrange
              linarith [hrange.1, hrange.2]
            · linarith
          · linarith
        · linarith
  · exact ⟨hch, hbound, hlo, hhi⟩

lemma detect_beats_tempoInv {a : AudioAnalyzer} {t : ℚ} (h : a.tempoInv) :
    (a.detect_beats t).tempoInv := by
  unfold AudioAnalyzer.detect_beats AudioAnalyzer.tempoInv
  dsimp only
  split
  · exact updateTempo_inv h.1 h.2.1 h.2.2.1 h.2.2.2
  · exact h

lemma analyzeWith_tempoInv {a : AudioAnalyzer} {sp : Option (List (ℚ × ℚ))} {t : ℚ}
    (h : a.tempoInv) : (a.analyzeWith sp t).tempoInv := by
  unfold AudioAnalyzer.analyzeWith
  split
  · exact h
  · cases sp with
    | none => exact h
    | some l => exact detect_beats_tempoInv h

lemma apply_tempoInv {a : AudioAnalyzer} {op : AudioOp} (h : a.tempoInv) :
    (AudioOp.apply a op).tempoInv := by
  cases op with
  | addSample x => exact h
  | analyzeTick sp t => exact analyzeWith_tempoInv h

lemma new_tempoInv (sr : ℕ) : (AudioAnalyzer.new sr).tempoInv := by
  refine ⟨by simp [AudioAnalyzer.new], by simp [AudioAnalyzer.new], ?_, ?_⟩ <;>
    simp [AudioAnalyzer.new] <;> norm_num

lemma foldl_apply_tempoInv :
    ∀ (ops : List AudioOp) (a : AudioAnalyzer), a.tempoInv →
      (ops.foldl AudioOp.apply a).tempoInv := by
  intro ops
  induction ops with
  | nil => intro a h; exact h
  | cons op ops ih => intro a h; exact ih _ (apply_tempoInv h)

lemma runOps_tempoInv (sr : ℕ) (ops : List AudioOp) : (runOps sr ops).tempoInv :=
  foldl_apply_tempoInv ops _ (new_tempoInv sr)

/-! Claim theorems. -/

/-- C2: after any sequence of add_sample/analyze operations (with the FFT
oracle producing non-negative magnitudes), every normalized-energy query
returns a value in [0, 1] and smoothed_energy never exceeds max_energy; and
on any state whose max_energy is 0, the per-band query returns exactly 0
(total division on ℚ, no NaN). -/
theorem c2_normalized_energy_bounds (sr : ℕ) (ops : List AudioOp) (hwf : opsWF ops = true)
    (range : FrequencyRange) (st : AudioAnalyzer) :
    (0 ≤ (runOps sr ops).get_normalized_energy range ∧
      (runOps sr ops).get_normalized_energy range ≤ 1) ∧
    ((runOps sr ops).bass.smoothed ≤ (runOps sr ops).bass.maxE ∧
      (runOps sr ops).mid.smoothed ≤ (runOps sr ops).mid.maxE ∧
      (runOps sr ops).high.smoothed ≤ (runOps sr ops).high.maxE) ∧
    (st.bass.maxE = 0 → st.get_normalized_energy .Bass = 0) ∧
    (st.mid.maxE = 0 → st.get_normalized_energy .Mid = 0) ∧
    (st.high.maxE = 0 → st.get_normalized_energy .High = 0) := by
  have hinv : (runOps sr ops).energyInvAll := runOps_energyInvAll hwf
  refine ⟨get_normalized_energy_bounds hinv range,
    ⟨hinv.1.2.2.1, hinv.2.1.2.2.1, hinv.2.2.1.2.2.1⟩, ?_, ?_, ?_⟩ <;>
    · intro hmax
      simp [AudioAnalyzer.get_normalized_energy, hmax]

/-- C2 witness: the bounds evaluated on a concrete run and a concrete state. -/
theorem c2_normalized_energy_bounds_witness :
    opsWF [AudioOp.addSample 1, AudioOp.analyzeTick (some [(100, 2)]) 1] = true ∧
      (0 ≤ (runOps 44100 [AudioOp.addSample 1,
          AudioOp.analyzeTick (some [(100, 2)]) 1]).get_normalized_energy .Bass ∧
        (runOps 44100 [AudioOp.addSample 1,
          AudioOp.analyzeTick (some [(100, 2)]) 1]).get_normalized_energy .Bass ≤ 1) ∧
      ((runOps 44100 [AudioOp.addSample 1, AudioOp.analyzeTick (some [(100, 2)]) 1]).bass.smoothed ≤
          (runOps 44100 [AudioOp.addSample 1,
            AudioOp.analyzeTick (some [(100, 2)]) 1]).bass.maxE ∧
        (runOps 44100 [AudioOp.addSample 1, AudioOp.analyzeTick (some [(100, 2)]) 1]).mid.smoothed ≤
          (runOps 44100 [AudioOp.addSample 1,
            AudioOp.analyzeTick (some [(100, 2)]) 1]).mid.maxE ∧
        (runOps 44100 [AudioOp.addSample 1, AudioOp.analyzeTick (some [(100, 2)]) 1]).high.smoothed ≤
          (runOps 44100 [AudioOp.addSample 1,
            AudioOp.analyzeTick (some [(100, 2)]) 1]).high.maxE) ∧
      ((AudioAnalyzer.new 48000).bass.maxE = 0 →
        (AudioAnalyzer.new 48000).get_normalized_energy .Bass = 0) ∧
      ((AudioAnalyzer.new 48000).mid.maxE = 0 →
        (AudioAnalyzer.new 48000).get_normalized_energy .Mid = 0) ∧
      ((AudioAnalyzer.new 48000).high.maxE = 0 →
        (AudioAnalyzer.new 48000).get_normalized_energy .High = 0) :=
  ⟨by decide,
    c2_normalized_energy_bounds 44100
      [AudioOp.addSample 1, AudioOp.analyzeTick (some [(100, 2)]) 1] (by decide) .Bass
      (AudioAnalyzer.new 48000)⟩

/-- C3: after any sequence of operations, consecutive timestamps recorded in
beat_timestamps always differ by more than 0.2 s (the 200 ms beat refractory
period). -/
theorem c3_beat_refractory (sr : ℕ) (ops : List AudioOp) :
    List.Chain' (fun u v => u + 0.2 < v) (runOps sr ops).beat_timestamps :=
  (runOps_tempoInv sr ops).1

/-- C10: after any sequence of operations, the estimated BPM lies in
[60, 200]: it is seeded at 120 and only ever replaced by a convex blend with
an instantaneous value accepted only inside that interval. -/
theorem c10_estimated_bpm_range (sr : ℕ) (ops : List AudioOp) :
    60 ≤ (runOps sr ops).estimated_bpm ∧ (runOps sr ops).estimated_bpm ≤ 200 :=
  ⟨(runOps_tempoInv sr ops).2.2.1, (runOps_tempoInv sr ops).2.2.2⟩

/-- The instantaneous BPM over a list of beat timestamps, as the spec
phrases it: (count - 1) * 60 / (newest - oldest). -/
def instantaneousBpm (l : List ℚ) : ℚ :=
  ((l.length - 1 : ℕ) : ℚ) * 60 / (l.getLastD 0 - l.headD 0)

/-- C4: under the tempo invariant, when a bass beat passes the refractory
gate the estimated BPM is replaced by the 0.7 old / 0.3 new blend exactly
when at least 4 timestamps are retained and the instantaneous BPM over them
lies in [60, 200]; otherwise it is left unchanged. The positive-time-span
check in the code is subsumed by the invariant. -/
theorem c4_bpm_blend (t bpm lbt : ℚ) (ts : List ℚ)
    (hch : List.Chain' (fun u v => u + 0.2 < v) ts)
    (hbound : ∀ y ∈ ts, y ≤ lbt) (hfire : 0.2 < t - lbt) :
    (updateTempo t bpm ts lbt).1 =
      if 4 ≤ ((ts ++ [t]).dropWhile fun x => decide (5 < t - x)).length ∧
          60 ≤ instantaneousBpm ((ts ++ [t]).dropWhile fun x => decide (5 < t - x)) ∧
          instantaneousBpm ((ts ++ [t]).dropWhile fun x => decide (5 < t - x)) ≤ 200 then
        bpm * 0.7 + instantaneousBpm ((ts ++ [t]).dropWhile fun x => decide (5 < t - x)) * 0.3
      else bpm := by
  have hchain1 : List.Chain' (fun u v => u + 0.2 < v) (ts ++ [t]) := by
    rw [List.chain'_append]
    refine ⟨hch, List.chain'_singleton t, ?_⟩
    intro x hx y hy
    have hxts : x ∈ ts := List.mem_of_mem_getLast? hx
    have hyt : t = y := by simpa using hy
    have := hbound x hxts
    subst hyt
    linarith
  have hchain2 :
      List.Chain' (fun u v => u + 0.2 < v)
        ((ts ++ [t]).dropWhile fun x => decide (5 < t - x)) :=
    chain'_dropWhile _ _ hchain1
  unfold updateTempo
  rw [if_pos hfire]
  dsimp only
  by_cases h4 : 4 ≤ ((ts ++ [t]).dropWhile fun x => decide (5 < t - x)).length
  · rw [if_pos h4]
    have hspan :
        0 < ((ts ++ [t]).dropWhile fun x => decide (5 < t - x)).getLastD 0 -
          ((ts ++ [t]).dropWhile fun x => decide (5 < t - x)).headD 0 := by
      rcases hz : (ts ++ [t]).dropWhile fun x => decide (5 < t - x) with _ | ⟨a, rest⟩
      · rw [hz] at h4
        simp at h4
      · rw [hz] at h4 hchain2
        have hne : rest ≠ [] := by
          intro hnil
          rw [hnil] at h4
          simp at h4
        have hlt : a < rest.getLastD a :=
          chain'_lt_getLastD _ (fun u v h => by linarith) rest a hchain2 hne
        rw [List.getLastD_cons]
        simpa using hlt
    have hib :
        ((((ts ++ [t]).dropWhile fun x => decide (5 < t - x)).length - 1 : ℕ) : ℚ) * 60 /
            (((ts ++ [t]).dropWhile fun x => decide (5 < t - x)).getLastD 0 -
              ((ts ++ [t]).dropWhile fun x => decide (5 < t - x)).headD 0) =
          instantaneousBpm ((ts ++ [t]).dropWhile fun x => decide (5 < t - x)) := rfl
    rw [if_pos hspan, hib]
    by_cases hr :
        60 ≤ instantaneousBpm ((ts ++ [t]).dropWhile fun x => decide (5 < t - x)) ∧
          instantaneousBpm ((ts ++ [t]).dropWhile fun x => decide (5 < t - x)) ≤ 200
    · rw [if_pos hr, if_pos ⟨h4, hr⟩]
    · rw [if_neg hr, if_neg ?_]
      intro hcon
      exact hr ⟨hcon.2.1, hcon.2.2⟩
  · rw [if_neg h4, if_neg ?_]
    intro hcon
    exact h4 hcon.1

/-- C4 witness: a concrete firing update where the instantaneous BPM over
the five retained timestamps is 200 and the estimate blends to 144. -/
theorem c4_bpm_blend_witness :
    (List.Chain' (fun u v => u + 0.2 < v) ([1, 13/10, 16/10, 19/10] : List ℚ) ∧
      (∀ y ∈ ([1, 13/10, 16/10, 19/10] : List ℚ), y ≤ 19/10) ∧
      (0.2 : ℚ) < 22/10 - 19/10) ∧
    (updateTempo (22/10) 120 [1, 13/10, 16/10, 19/10] (19/10)).1 =
      (if 4 ≤ ((([1, 13/10, 16/10, 19/10] : List ℚ) ++ [22/10]).dropWhile fun x =>
            decide (5 < 22/10 - x)).length ∧
          60 ≤ instantaneousBpm ((([1, 13/10, 16/10, 19/10] : List ℚ) ++ [22/10]).dropWhile
            fun x => decide (5 < 22/10 - x)) ∧
          instantaneousBpm ((([1, 13/10, 16/10, 19/10] : List ℚ) ++ [22/10]).dropWhile
            fun x => decide (5 < 22/10 - x)) ≤ 200 then
        120 * 0.7 + instantaneousBpm ((([1, 13/10, 16/10, 19/10] : List ℚ) ++ [22/10]).dropWhile
          fun x => decide (5 < 22/10 - x)) * 0.3
      else 120) :=
  ⟨⟨by norm_num [List.chain'_cons], by decide, by decide⟩,
    c4_bpm_blend (22/10) 120 (19/10) [1, 13/10, 16/10, 19/10]
      (by norm_num [List.chain'_cons]) (by decide) (by decide)⟩

/-! Concrete fixtures for the engine-level claims. -/

/-- A band state with given smoothed and max energy (other fields zeroed),
for building concrete analyzer snapshots. -/
def testBand (sm mx : ℚ) : BandState :=
  { energy := 0, smoothed := sm, maxE := mx, prevE := 0, history := [],
    beatDetected := false, beatCount := 0 }

/-- The RGB triple of a decision. -/
def colorTriple (c : AudioColor) : ℕ × ℕ × ℕ :=
  (c.r, c.g, c.b)

lemma colorTriple_mk (r g b br : ℕ) (e : Option ℕ) :
    colorTriple { r := r, g := g, b := b, brightness := br, effect := e } = (r, g, b) :=
  rfl

/-- Active configuration in FrequencyColor mode (the default mode). -/
def c1Config : AudioVisualization :=
  { AudioVisualization.default with active := true }

/-- C1: the claim says the Decision depends only on snapshot, configuration
and timestamp. Counterexample: in FrequencyColor mode the brightness field
is never assigned, so two passes over the same snapshot, configuration and
timestamp but different carried decisions publish different Decisions. -/
theorem c1_counterexample :
    decideColor (fun _ => 0) (AudioAnalyzer.new 44100) c1Config 0
        { r := 0, g := 0, b := 0, brightness := 100, effect := none } ≠
      decideColor (fun _ => 0) (AudioAnalyzer.new 44100) c1Config 0
        { r := 0, g := 0, b := 0, brightness := 50, effect := none } := by
  decide

/-- C1 amended: the engine is a pure function of (previous decision,
snapshot, configuration, timestamp) and is idempotent in every mode
(applying it twice to the same snapshot, configuration and timestamp gives
the same Decision as applying it once); but the Decision is independent of
the previously produced decision only in the modes other than
FrequencyColor (which carries brightness over) and SpectralFlow (whose
bass-flash branch carries r, g, b over). -/
theorem c1_prev_independent (sinQ : ℚ → ℚ) (a : AudioAnalyzer) (cfg : AudioVisualization)
    (t : ℚ) (prev1 prev2 : AudioColor) (h1 : cfg.mode ≠ .FrequencyColor)
    (h2 : cfg.mode ≠ .SpectralFlow) :
    (∀ cfg2 : AudioVisualization,
      decideColor sinQ a cfg2 t (decideColor sinQ a cfg2 t prev1) =
        decideColor sinQ a cfg2 t prev1) ∧
    decideColor sinQ a cfg t prev1 = decideColor sinQ a cfg t prev2 := by
  constructor
  · intro cfg2
    cases hm : cfg2.mode with
    | FrequencyColor => simp only [decideColor, hm]
    | SpectralFlow =>
        simp only [decideColor, hm]
        split_ifs <;> rfl
    | EnergyBrightness => simp only [decideColor, hm]
    | BeatEffects => simp only [decideColor, hm]
    | EnhancedFrequencyColor => simp only [decideColor, hm]
    | BpmSync => simp only [decideColor, hm]
  · cases hm : cfg.mode with
    | FrequencyColor => exact absurd hm h1
    | SpectralFlow => exact absurd hm h2
    | EnergyBrightness => simp only [decideColor, hm]
    | BeatEffects => simp only [decideColor, hm]
    | EnhancedFrequencyColor => simp only [decideColor, hm]
    | BpmSync => simp only [decideColor, hm]

/-- Active configuration in EnergyBrightness mode with sensitivity 1. -/
def c5Config : AudioVisualization :=
  { AudioVisualization.default with mode := .EnergyBrightness, sensitivity := 1, active := true }

/-- C1 witness: prev-independence evaluated in EnergyBrightness mode on two
different carried decisions. -/
theorem c1_prev_independent_witness :
    (c5Config.mode ≠ VisualizationMode.FrequencyColor ∧
      c5Config.mode ≠ VisualizationMode.SpectralFlow) ∧
    ((∀ cfg2 : AudioVisualization,
      decideColor (fun _ => 0) (AudioAnalyzer.new 44100) cfg2 0
          (decideColor (fun _ => 0) (AudioAnalyzer.new 44100) cfg2 0 AudioColor.default) =
        decideColor (fun _ => 0) (AudioAnalyzer.new 44100) cfg2 0 AudioColor.default) ∧
    decideColor (fun _ => 0) (AudioAnalyzer.new 44100) c5Config 0 AudioColor.default =
      decideColor (fun _ => 0) (AudioAnalyzer.new 44100) c5Config 0
        { r := 1, g := 2, b := 3, brightness := 4, effect := some 5 }) :=
  ⟨⟨by decide, by decide⟩,
    c1_prev_independent (fun _ => 0) (AudioAnalyzer.new 44100) c5Config 0 AudioColor.default
      { r := 1, g := 2, b := 3, brightness := 4, effect := some 5 } (by decide) (by decide)⟩

/-- C9: the claim says queued samples lie in [-1, 1] after amplification.
Counterexample: the raw sample 1/2 lies in [-1, 1] but the callback hands
5/2 to the queue. -/
theorem c9_counterexample :
    (-1 ≤ (1/2 : ℚ) ∧ (1/2 : ℚ) ≤ 1) ∧
      ¬(-1 ≤ capturedSample (1/2) ∧ capturedSample (1/2) ≤ 1) := by
  decide

/-- C9 amended: for every platform sample in [-1, 1], the value handed to
the ingestion queue is the sample times the amplification factor 5 and lies
in [-5, 5]. -/
theorem c9_amplified_range (x : ℚ) (h1 : -1 ≤ x) (h2 : x ≤ 1) :
    -5 ≤ capturedSample x ∧ capturedSample x ≤ 5 := by
  unfold capturedSample
  constructor <;> linarith

/-- C9 witness: the amplified range evaluated at the sample 1/2. -/
theorem c9_amplified_range_witness :
    (-1 ≤ (1/2 : ℚ) ∧ (1/2 : ℚ) ≤ 1) ∧
      (-5 ≤ capturedSample (1/2) ∧ capturedSample (1/2) ≤ 5) :=
  ⟨⟨by decide, by decide⟩, c9_amplified_range (1/2) (by decide) (by decide)⟩

/-- C8: on a pass where the update interval has elapsed but the
configuration is inactive, the pipeline publishes nothing, the analyzer
still advances exactly as it would on an active pass, and a Decision is
published only on a pass whose configuration is active. -/
theorem c8_inactive_no_publish (sinQ : ℚ → ℚ) (cfg : AudioVisualization) (pending : List ℚ)
    (spectrum : Option (List (ℚ × ℚ))) (now tA tD : ℚ) (st : AnalyzerLoopState)
    (hactive : cfg.active = false)
    (helapsed : (cfg.update_interval_ms : ℚ) ≤ now - st.lastUpdate) :
    (runAnalyzerPass sinQ cfg pending spectrum now tA tD st).2 = none ∧
    (runAnalyzerPass sinQ cfg pending spectrum now tA tD st).1.analyzer =
      (runAnalyzerPass sinQ { cfg with active := true } pending spectrum now tA tD st).1.analyzer ∧
    (∀ cfg2 : AudioVisualization,
      (runAnalyzerPass sinQ cfg2 pending spectrum now tA tD st).2 ≠ none →
        cfg2.active = true) := by
  refine ⟨?_, ?_, ?_⟩
  · simp only [runAnalyzerPass]
    rw [if_pos helapsed]
    simp [hactive]
  · simp only [runAnalyzerPass]
    rw [if_pos helapsed, if_pos helapsed]
    simp [hactive]
  · intro cfg2 hpub
    by_contra hact
    have hfalse : cfg2.active = false := by
      cases hc2 : cfg2.active
      · rfl
      · exact absurd hc2 hact
    apply hpub
    simp only [runAnalyzerPass]
    split
    · simp [hfalse]
    · rfl

/-- C8 witness: the inactive-pass behavior evaluated at a concrete pass. -/
theorem c8_inactive_no_publish_witness :
    (AudioVisualization.default.active = false ∧
      ((AudioVisualization.default.update_interval_ms : ℚ) ≤ 100 - 0)) ∧
    ((runAnalyzerPass (fun _ => 0) AudioVisualization.default [1] none 100 0 0
        ⟨AudioAnalyzer.new 44100, 0, AudioColor.default⟩).2 = none ∧
      (runAnalyzerPass (fun _ => 0) AudioVisualization.default [1] none 100 0 0
          ⟨AudioAnalyzer.new 44100, 0, AudioColor.default⟩).1.analyzer =
        (runAnalyzerPass (fun _ => 0) { AudioVisualization.default with active := true } [1] none
            100 0 0 ⟨AudioAnalyzer.new 44100, 0, AudioColor.default⟩).1.analyzer ∧
      (∀ cfg2 : AudioVisualization,
        (runAnalyzerPass (fun _ => 0) cfg2 [1] none 100 0 0
            ⟨AudioAnalyzer.new 44100, 0, AudioColor.default⟩).2 ≠ none →
          cfg2.active = true)) :=
  ⟨⟨by decide, by decide⟩,
    c8_inactive_no_publish (fun _ => 0) AudioVisualization.default [1] none 100 0 0
      ⟨AudioAnalyzer.new 44100, 0, AudioColor.default⟩ (by decide) (by decide)⟩

/-- Snapshot whose normalized energies are bass = 0.15, mid = 0.14,
high = 0.14: bass strictly dominates but by a margin far below 0.1. -/
def c5Analyzer : AudioAnalyzer :=
  { AudioAnalyzer.new 44100 with
    bass := testBand (3/20) 1
    mid := testBand (7/50) 1
    high := testBand (7/50) 1 }

/-- C5: the claim says the decided color is pure red exactly when bass
dominates the other bands by a margin greater than 0.1. Counterexample:
with bass = 0.15, mid = high = 0.14 the margin is only 0.01, so the claim
demands white, but the code (which tests plain dominance plus the absolute
threshold 0.1) decides pure red. -/
theorem c5_counterexample :
    colorTriple (decideColor (fun _ => 0) c5Analyzer c5Config 0 AudioColor.default) =
        (255, 0, 0) ∧
      ¬(c5Analyzer.get_normalized_energy .Mid + 0.1 < c5Analyzer.get_normalized_energy .Bass ∧
        c5Analyzer.get_normalized_energy .High + 0.1 < c5Analyzer.get_normalized_energy .Bass) := by
  decide

/-- C5 amended: in EnergyBrightness mode the decided color is pure red,
green or blue exactly when the corresponding band strictly exceeds both
other bands and exceeds the absolute threshold 0.1 (not a 0.1 margin over
them), and white exactly when no band does. -/
theorem c5_dominance_amended (sinQ : ℚ → ℚ) (a : AudioAnalyzer) (cfg : AudioVisualization)
    (t : ℚ) (prev : AudioColor) (hmode : cfg.mode = .EnergyBrightness) :
    (colorTriple (decideColor sinQ a cfg t prev) = (255, 0, 0) ↔
      a.get_normalized_energy .Mid < a.get_normalized_energy .Bass ∧
        a.get_normalized_energy .High < a.get_normalized_energy .Bass ∧
        (0.1 : ℚ) < a.get_normalized_energy .Bass) ∧
    (colorTriple (decideColor sinQ a cfg t prev) = (0, 255, 0) ↔
      a.get_normalized_energy .Bass < a.get_normalized_energy .Mid ∧
        a.get_normalized_energy .High < a.get_normalized_energy .Mid ∧
        (0.1 : ℚ) < a.get_normalized_energy .Mid) ∧
    (colorTriple (decideColor sinQ a cfg t prev) = (0, 0, 255) ↔
      a.get_normalized_energy .Bass < a.get_normalized_energy .High ∧
        a.get_normalized_energy .Mid < a.get_normalized_energy .High ∧
        (0.1 : ℚ) < a.get_normalized_energy .High) ∧
    (colorTriple (decideColor sinQ a cfg t prev) = (255, 255, 255) ↔
      (¬(a.get_normalized_energy .Mid < a.get_normalized_energy .Bass ∧
          a.get_normalized_energy .High < a.get_normalized_energy .Bass ∧
          (0.1 : ℚ) < a.get_normalized_energy .Bass) ∧
        ¬(a.get_normalized_energy .Bass < a.get_normalized_energy .Mid ∧
          a.get_normalized_energy .High < a.get_normalized_energy .Mid ∧
          (0.1 : ℚ) < a.get_normalized_energy .Mid) ∧
        ¬(a.get_normalized_energy .Bass < a.get_normalized_energy .High ∧
          a.get_normalized_energy .Mid < a.get_normalized_energy .High ∧
          (0.1 : ℚ) < a.get_normalized_energy .High))) := by
  simp only [decideColor, hmode]
  split_ifs with h1 h2 h3
  · exact ⟨⟨fun _ => h1, fun _ => rfl⟩,
      ⟨fun he => by rw [colorTriple_mk] at he; exact absurd he (by decide), fun hc => (lt_asymm h1.1 hc.1).elim⟩,
      ⟨fun he => by rw [colorTriple_mk] at he; exact absurd he (by decide), fun hc => (lt_asymm h1.2.1 hc.1).elim⟩,
      ⟨fun he => by rw [colorTriple_mk] at he; exact absurd he (by decide), fun hn => (hn.1 h1).elim⟩⟩
  · exact ⟨⟨fun he => by rw [colorTriple_mk] at he; exact absurd he (by decide), fun hc => (h1 hc).elim⟩,
      ⟨fun _ => h2, fun _ => rfl⟩,
      ⟨fun he => by rw [colorTriple_mk] at he; exact absurd he (by decide), fun hc => (lt_asymm h2.2.1 hc.2.1).elim⟩,
      ⟨fun he => by rw [colorTriple_mk] at he; exact absurd he (by decide), fun hn => (hn.2.1 h2).elim⟩⟩
  · exact ⟨⟨fun he => by rw [colorTriple_mk] at he; exact absurd he (by decide), fun hc => (h1 hc).elim⟩,
      ⟨fun he => by rw [colorTriple_mk] at he; exact absurd he (by decide), fun hc => (h2 hc).elim⟩,
      ⟨fun _ => h3, fun _ => rfl⟩,
      ⟨fun he => by rw [colorTriple_mk] at he; exact absurd he (by decide), fun hn => (hn.2.2 h3).elim⟩⟩
  · exact ⟨⟨fun he => by rw [colorTriple_mk] at he; exact absurd he (by decide), fun hc => (h1 hc).elim⟩,
      ⟨fun he => by rw [colorTriple_mk] at he; exact absurd he (by decide), fun hc => (h2 hc).elim⟩,
      ⟨fun he => by rw [colorTriple_mk] at he; exact absurd he (by decide), fun hc => (h3 hc).elim⟩,
      ⟨fun _ => ⟨h1, h2, h3⟩, fun _ => rfl⟩⟩

/-- C5 witness: the dominance characterization evaluated on the concrete
snapshot with bass = 0.15, mid = high = 0.14. -/
theorem c5_dominance_amended_witness :
    c5Config.mode = VisualizationMode.EnergyBrightness ∧
    ((colorTriple (decideColor (fun _ => 0) c5Analyzer c5Config 0 AudioColor.default) =
        (255, 0, 0) ↔
      c5Analyzer.get_normalized_energy .Mid < c5Analyzer.get_normalized_energy .Bass ∧
        c5Analyzer.get_normalized_energy .High < c5Analyzer.get_normalized_energy .Bass ∧
        (0.1 : ℚ) < c5Analyzer.get_normalized_energy .Bass) ∧
    (colorTriple (decideColor (fun _ => 0) c5Analyzer c5Config 0 AudioColor.default) =
        (0, 255, 0) ↔
      c5Analyzer.get_normalized_energy .Bass < c5Analyzer.get_normalized_energy .Mid ∧
        c5Analyzer.get_normalized_energy .High < c5Analyzer.get_normalized_energy .Mid ∧
        (0.1 : ℚ) < c5Analyzer.get_normalized_energy .Mid) ∧
    (colorTriple (decideColor (fun _ => 0) c5Analyzer c5Config 0 AudioColor.default) =
        (0, 0, 255) ↔
      c5Analyzer.get_normalized_energy .Bass < c5Analyzer.get_normalized_energy .High ∧
        c5Analyzer.get_normalized_energy .Mid < c5Analyzer.get_normalized_energy .High ∧
        (0.1 : ℚ) < c5Analyzer.get_normalized_energy .High) ∧
    (colorTriple (decideColor (fun _ => 0) c5Analyzer c5Config 0 AudioColor.default) =
        (255, 255, 255) ↔
      (¬(c5Analyzer.get_normalized_energy .Mid < c5Analyzer.get_normalized_energy .Bass ∧
          c5Analyzer.get_normalized_energy .High < c5Analyzer.get_normalized_energy .Bass ∧
          (0.1 : ℚ) < c5Analyzer.get_normalized_energy .Bass) ∧
        ¬(c5Analyzer.get_normalized_energy .Bass < c5Analyzer.get_normalized_energy .Mid ∧
          c5Analyzer.get_normalized_energy .High < c5Analyzer.get_normalized_energy .Mid ∧
          (0.1 : ℚ) < c5Analyzer.get_normalized_energy .Mid) ∧
        ¬(c5Analyzer.get_normalized_energy .Bass < c5Analyzer.get_normalized_energy .High ∧
          c5Analyzer.get_normalized_energy .Mid < c5Analyzer.get_normalized_energy .High ∧
          (0.1 : ℚ) < c5Analyzer.get_normalized_energy .High)))) :=
  ⟨rfl, c5_dominance_amended (fun _ => 0) c5Analyzer c5Config 0 AudioColor.default rfl⟩

/-- Snapshot whose normalized energies are bass = 1, mid = 0, high = 1. -/
def c6Analyzer : AudioAnalyzer :=
  { AudioAnalyzer.new 44100 with
    bass := testBand 1 1
    mid := testBand 0 1
    high := testBand 1 1 }

/-- Active configuration in EnhancedFrequencyColor mode with sensitivity 1. -/
def c6Config : AudioVisualization :=
  { AudioVisualization.default with
    mode := .EnhancedFrequencyColor, sensitivity := 1, active := true }

/-- C6: at normalized bass = 1, mid = 0, high = 1 and sensitivity 1, the red
channel receives the contributions 255 (bass) and 180 (high-squared white
tint), whose sum 435 exceeds 255. The spec says the channel saturates at
min(255, 435) = 255, but the Rust `u8 +=` wraps modulo 256 in release mode
(and panics on overflow in debug mode), so the code produces 179. -/
theorem c6_overflow_wraps :
    (decideColor (fun _ => 0) c6Analyzer c6Config 0 AudioColor.default).r = 179 ∧
      f32ToU8 (255 * c6Analyzer.get_normalized_energy .Bass * c6Config.sensitivity) +
          f32ToU8 (180 * c6Analyzer.get_normalized_energy .High *
            c6Analyzer.get_normalized_energy .High * c6Config.sensitivity) = 435 ∧
      min 255 435 = 255 ∧ (179 : ℕ) ≠ 255 := by
  decide

/-- Snapshot with normalized bass = 0.15, mid = high = 0.14 and a BPM
estimate of 150. -/
def c7Analyzer : AudioAnalyzer :=
  { AudioAnalyzer.new 44100 with
    estimated_bpm := 150
    bass := testBand (3/20) 1
    mid := testBand (7/50) 1
    high := testBand (7/50) 1 }

/-- Active configuration in BpmSync mode. -/
def c7Config : AudioVisualization :=
  { AudioVisualization.default with mode := .BpmSync, active := true }

/-- C7: the claim says get_energy returns the analyzer's last known
normalized band energy and get_estimated_bpm the analyzer's current BPM
estimate. Counterexample: get_energy reads back the published Decision's
RGB channels; after an EnergyBrightness decision on the snapshot with
normalized bass 0.15 it reports bass energy 1 (pure red published), not
0.15. And get_estimated_bpm never reads the analyzer: in BpmSync mode it
returns the placeholder 120 while the analyzer's estimate is 150. -/
theorem c7_counterexample :
    (AudioMonitor.get_energy
        (decideColor (fun _ => 0) c7Analyzer c5Config 0 AudioColor.default) .Bass = 1 ∧
      c7Analyzer.get_normalized_energy .Bass = 3/20 ∧ ((1 : ℚ) ≠ 3/20)) ∧
    (AudioMonitor.get_estimated_bpm c7Config = 120 ∧ c7Analyzer.estimated_bpm = 150 ∧
      ((120 : ℚ) ≠ 150)) := by
  decide

/-- C7 amended: the diagnostic queries are derived views: get_energy maps
the latest published Decision's channels back through r/255, g/255, b/255
(their mean for Full), always landing in [0, 1] for channel values up to
255, and get_estimated_bpm reads only the configuration, returning the
placeholder 120 in BpmSync mode and 0 otherwise. -/
theorem c7_energy_from_published_color (c : AudioColor) (cfg : AudioVisualization)
    (hr : c.r ≤ 255) (hg : c.g ≤ 255) (hb : c.b ≤ 255) :
    AudioMonitor.get_energy c .Full =
      (AudioMonitor.get_energy c .Bass + AudioMonitor.get_energy c .Mid +
        AudioMonitor.get_energy c .High) / 3 ∧
    (∀ range, 0 ≤ AudioMonitor.get_energy c range ∧ AudioMonitor.get_energy c range ≤ 1) ∧
    (cfg.mode = .BpmSync → AudioMonitor.get_estimated_bpm cfg = 120) ∧
    (cfg.mode ≠ .BpmSync → AudioMonitor.get_estimated_bpm cfg = 0) := by
  have hr255 : ((c.r : ℚ)) ≤ 255 := by exact_mod_cast hr
  have hg255 : ((c.g : ℚ)) ≤ 255 := by exact_mod_cast hg
  have hb255 : ((c.b : ℚ)) ≤ 255 := by exact_mod_cast hb
  have hr0 : (0 : ℚ) ≤ (c.r : ℚ) := by positivity
  have hg0 : (0 : ℚ) ≤ (c.g : ℚ) := by positivity
  have hb0 : (0 : ℚ) ≤ (c.b : ℚ) := by positivity
  refine ⟨?_, ?_, ?_, ?_⟩
  · unfold AudioMonitor.get_energy
    ring
  · intro range
    cases range <;> unfold AudioMonitor.get_energy <;> constructor
    · positivity
    · rw [div_le_one (by norm_num)]
      linarith
    · positivity
    · rw [div_le_one (by norm_num)]
      linarith
    · positivity
    · rw [div_le_one (by norm_num)]
      linarith
    · positivity
    · rw [div_le_one (by norm_num)]
      linarith
  · intro h
    simp [AudioMonitor.get_estimated_bpm, h]
  · intro h
    simp [AudioMonitor.get_estimated_bpm, h]

/-- C7 witness: the derived-view properties evaluated at the published
decision (255, 0, 0, 50, none) and the BpmSync configuration. -/
theorem c7_energy_from_published_color_witness :
    ((255 : ℕ) ≤ 255 ∧ (0 : ℕ) ≤ 255 ∧ (0 : ℕ) ≤ 255) ∧
    (AudioMonitor.get_energy { r := 255, g := 0, b := 0, brightness := 50, effect := none } .Full =
      (AudioMonitor.get_energy { r := 255, g := 0, b := 0, brightness := 50, effect := none }
          .Bass +
        AudioMonitor.get_energy { r := 255, g := 0, b := 0, brightness := 50, effect := none }
          .Mid +
        AudioMonitor.get_energy { r := 255, g := 0, b := 0, brightness := 50, effect := none }
          .High) / 3 ∧
    (∀ range,
      0 ≤ AudioMonitor.get_energy { r := 255, g := 0, b := 0, brightness := 50, effect := none }
            range ∧
        AudioMonitor.get_energy { r := 255, g := 0, b := 0, brightness := 50, effect := none }
            range ≤ 1) ∧
    (c7Config.mode = .BpmSync → AudioMonitor.get_estimated_bpm c7Config = 120) ∧
    (c7Config.mode ≠ .BpmSync → AudioMonitor.get_estimated_bpm c7Config = 0)) :=
  ⟨⟨by decide, by decide, by decide⟩,
    c7_energy_from_published_color { r := 255, g := 0, b := 0, brightness := 50, effect := none }
      c7Config (by decide) (by decide) (by decide)⟩

end ElkLed
